import Mathlib

/-!
Verification of the `ser` crate (src/lib.rs): a primitive-value capture
protocol bridging a primitive-only `Visitor` and serde's full `Serializer`
contract.

Modelling conventions:
* Machine integers are modelled by `Nat` / `Int`; the widening casts
  (`as u64`, `as i64`) in the source are value-preserving on in-range
  inputs, so they appear as the identity on the mathematical value.
* Floating-point payloads (`f32`, `f64`) are modelled by their exact value
  as a `Rat`; the `as f64` cast in the source is exact on every `f32`
  value, so it too is the identity on the modelled value. No claim here
  computes with floats — they are routed, never operated on.
* Rust's `char` is a Unicode scalar value, exactly Lean's `Char`.
* `&str` / `String` are Lean `String`; `&[u8]` / `Vec<u8>` are `List Nat`.
* A `Visitor` is a mutable sink; a capture is modelled by the trace (list)
  of `visit_*` calls the sink receives, in order.
* The external debug formatter (`format_args!("{:?}", self)`) is out of
  scope per the source (a std facility); it enters the model as an
  arbitrary function argument `dbg` rendering the original value to text.
-/

/-- One call received by a `Visitor` (trait at src/lib.rs lines 12-51),
together with its argument. `visit_args` carries the rendered text of the
`fmt::Arguments` it is given. -/
inductive VisitorCall where
  | visit_i64 (v : Int)
  | visit_u64 (v : Nat)
  | visit_f64 (v : Rat)
  | visit_bool (v : Bool)
  | visit_char (v : Char)
  | visit_str (v : String)
  | visit_bytes (v : List Nat)
  | visit_args (text : String)
  deriving DecidableEq, Repr

/-- The `Unsupported` unit error (src/lib.rs line 236): no payload. -/
inductive Unsupported where
  | unsupported
  deriving DecidableEq, Repr

/-- The first serde `Serializer` call a value makes when serialized, i.e.
the shape of a serde-serializable value as seen by `SerdeBridge`. Each
constructor is one `serialize_*` entry point of the `Serializer` trait
(plus `collect_str`); payloads mirror the arguments those methods receive.
`sSome` carries the inner value because `serialize_some` re-serializes it;
the other structured constructors carry only the metadata the bridge is
handed (which it ignores). -/
inductive SValue where
  | sBool (b : Bool)
  | sI8 (n : Int)
  | sI16 (n : Int)
  | sI32 (n : Int)
  | sI64 (n : Int)
  | sU8 (n : Nat)
  | sU16 (n : Nat)
  | sU32 (n : Nat)
  | sU64 (n : Nat)
  | sF32 (x : Rat)
  | sF64 (x : Rat)
  | sChar (c : Char)
  | sStr (s : String)
  | sCollectStr (rendered : String)
  | sBytes (bs : List Nat)
  | sNone
  | sSome (v : SValue)
  | sUnit
  | sUnitStruct (nm : String)
  | sUnitVariant (nm : String) (idx : Nat) (variant : String)
  | sNewtypeStruct (nm : String) (v : SValue)
  | sNewtypeVariant (nm : String) (idx : Nat) (variant : String) (v : SValue)
  | sSeq (len : Option Nat)
  | sTuple (len : Nat)
  | sTupleStruct (nm : String) (len : Nat)
  | sTupleVariant (nm : String) (idx : Nat) (variant : String) (len : Nat)
  | sMap (len : Option Nat)
  | sStruct (nm : String) (len : Nat)
  | sStructVariant (nm : String) (idx : Nat) (variant : String) (len : Nat)
  deriving DecidableEq, Repr

/-- Driving a value through `SerdeBridge` (src/lib.rs lines 264-435):
the result of `Serialize::serialize(v, SerdeBridge(visitor))`, paired with
the trace of calls the borrowed `Visitor` receives. One equation per
`Serializer` method, in source order:
* `serialize_bool` … `serialize_bytes` forward one visitor call and
  return `Ok` (the narrower widths delegate to the 64-bit method after a
  value-preserving cast);
* `collect_str` forwards the `Display` rendering of its argument via
  `visit_args` and returns `Ok` (line 328-330);
* `serialize_some` re-serializes the inner value with the same bridge
  (line 340-345);
* every remaining method returns `Err(Unsupported)` without touching the
  visitor (lines 336-434). -/
def bridge : SValue → Except Unsupported Unit × List VisitorCall
  | .sBool b => (.ok (), [.visit_bool b])
  | .sI8 n => (.ok (), [.visit_i64 n])
  | .sI16 n => (.ok (), [.visit_i64 n])
  | .sI32 n => (.ok (), [.visit_i64 n])
  | .sI64 n => (.ok (), [.visit_i64 n])
  | .sU8 n => (.ok (), [.visit_u64 n])
  | .sU16 n => (.ok (), [.visit_u64 n])
  | .sU32 n => (.ok (), [.visit_u64 n])
  | .sU64 n => (.ok (), [.visit_u64 n])
  | .sF32 x => (.ok (), [.visit_f64 x])
  | .sF64 x => (.ok (), [.visit_f64 x])
  | .sChar c => (.ok (), [.visit_char c])
  | .sStr s => (.ok (), [.visit_str s])
  | .sCollectStr rendered => (.ok (), [.visit_args rendered])
  | .sBytes bs => (.ok (), [.visit_bytes bs])
  | .sNone => (.error .unsupported, [])
  | .sSome v => bridge v
  | .sUnit => (.error .unsupported, [])
  | .sUnitStruct _ => (.error .unsupported, [])
  | .sUnitVariant _ _ _ => (.error .unsupported, [])
  | .sNewtypeStruct _ _ => (.error .unsupported, [])
  | .sNewtypeVariant _ _ _ _ => (.error .unsupported, [])
  | .sSeq _ => (.error .unsupported, [])
  | .sTuple _ => (.error .unsupported, [])
  | .sTupleStruct _ _ => (.error .unsupported, [])
  | .sTupleVariant _ _ _ _ => (.error .unsupported, [])
  | .sMap _ => (.error .unsupported, [])
  | .sStruct _ _ => (.error .unsupported, [])
  | .sStructVariant _ _ _ _ => (.error .unsupported, [])

/-- The `serde_interop` implementation of `Visit::visit` (src/lib.rs lines
207-216): serialize through the bridge; if that returns `Err(Unsupported)`,
additionally deliver `visit_args(format_args!("{:?}", self))`, where `dbg`
stands for the external debug formatter applied to the original value. The
result is the full trace the `Visitor` receives. -/
def capture (dbg : SValue → String) (v : SValue) : List VisitorCall :=
  match bridge v with
  | (.ok _, calls) => calls
  | (.error _, calls) => calls ++ [.visit_args (dbg v)]

/-- Structured-entry first calls: the `Serializer` methods C1 enumerates,
all of which the bridge answers with `Err(Unsupported)` (src/lib.rs lines
336-434, `serialize_some` excepted). -/
def structuredEntry : SValue → Bool
  | .sNone => true
  | .sUnit => true
  | .sUnitStruct _ => true
  | .sUnitVariant _ _ _ => true
  | .sNewtypeStruct _ _ => true
  | .sNewtypeVariant _ _ _ _ => true
  | .sSeq _ => true
  | .sTuple _ => true
  | .sTupleStruct _ _ => true
  | .sTupleVariant _ _ _ _ => true
  | .sMap _ => true
  | .sStruct _ _ => true
  | .sStructVariant _ _ _ _ => true
  | _ => false

/-- Primitive-shaped first calls in the spec's sense (section 4.3 dispatch
table rows that succeed by forwarding a primitive visitor call):
integers, floats, bool, char, string, bytes. -/
def primitiveShaped : SValue → Bool
  | .sBool _ => true
  | .sI8 _ => true
  | .sI16 _ => true
  | .sI32 _ => true
  | .sI64 _ => true
  | .sU8 _ => true
  | .sU16 _ => true
  | .sU32 _ => true
  | .sU64 _ => true
  | .sF32 _ => true
  | .sF64 _ => true
  | .sChar _ => true
  | .sStr _ => true
  | .sBytes _ => true
  | _ => false

/-- A Rust value of one of the types that carry a self-contained `Visit`
impl when `serde_interop` is off (src/lib.rs lines 85-173): the fixed
primitive set, `String` and `Vec<u8>` included (std feature). -/
inductive Prim where
  | pU8 (n : Nat)
  | pU16 (n : Nat)
  | pU32 (n : Nat)
  | pU64 (n : Nat)
  | pI8 (n : Int)
  | pI16 (n : Int)
  | pI32 (n : Int)
  | pI64 (n : Int)
  | pF32 (x : Rat)
  | pF64 (x : Rat)
  | pChar (c : Char)
  | pBool (b : Bool)
  | pStr (s : String)
  | pBytes (bs : List Nat)
  | pString (s : String)
  | pVecU8 (bs : List Nat)
  deriving DecidableEq, Repr

/-- The self-contained `Visit::visit` dispatch generated by
`ensure_impl_visit!` when `serde_interop` is off (src/lib.rs lines
85-173): each type makes exactly one call on the `Visitor`, widening
narrower numerics to 64 bits with a value-preserving cast. The trace the
`Visitor` receives is returned. -/
def visitDirect : Prim → List VisitorCall
  | .pU8 n => [.visit_u64 n]
  | .pU16 n => [.visit_u64 n]
  | .pU32 n => [.visit_u64 n]
  | .pU64 n => [.visit_u64 n]
  | .pI8 n => [.visit_i64 n]
  | .pI16 n => [.visit_i64 n]
  | .pI32 n => [.visit_i64 n]
  | .pI64 n => [.visit_i64 n]
  | .pF32 x => [.visit_f64 x]
  | .pF64 x => [.visit_f64 x]
  | .pChar c => [.visit_char c]
  | .pBool b => [.visit_bool b]
  | .pStr s => [.visit_str s]
  | .pBytes bs => [.visit_bytes bs]
  | .pString s => [.visit_str s]
  | .pVecU8 bs => [.visit_bytes bs]

/-- Whether the payload of a `Prim` lies in the range of its Rust machine
type (trivially true for the non-numeric carriers; byte-buffer entries
must hold bytes). -/
def inRange : Prim → Bool
  | .pU8 n => n < 2 ^ 8
  | .pU16 n => n < 2 ^ 16
  | .pU32 n => n < 2 ^ 32
  | .pU64 n => n < 2 ^ 64
  | .pI8 n => -2 ^ 7 ≤ n ∧ n < 2 ^ 7
  | .pI16 n => -2 ^ 15 ≤ n ∧ n < 2 ^ 15
  | .pI32 n => -2 ^ 31 ≤ n ∧ n < 2 ^ 31
  | .pI64 n => -2 ^ 63 ≤ n ∧ n < 2 ^ 63
  | .pBytes bs => bs.all (· < 2 ^ 8)
  | .pVecU8 bs => bs.all (· < 2 ^ 8)
  | _ => true

/-- The single `Visitor` call the claim's dispatch table (spec section 4.2
/ C2) prescribes for each primitive value: the matching `visit_*` kind,
with narrower numerics widened losslessly to 64 bits. Spec-side
comparison definition for C2; on the mathematical payloads the lossless
widenings are the identity. -/
def claimedCall : Prim → VisitorCall
  | .pU8 n => .visit_u64 n
  | .pU16 n => .visit_u64 n
  | .pU32 n => .visit_u64 n
  | .pU64 n => .visit_u64 n
  | .pI8 n => .visit_i64 n
  | .pI16 n => .visit_i64 n
  | .pI32 n => .visit_i64 n
  | .pI64 n => .visit_i64 n
  | .pF32 x => .visit_f64 x
  | .pF64 x => .visit_f64 x
  | .pChar c => .visit_char c
  | .pBool b => .visit_bool b
  | .pStr s => .visit_str s
  | .pBytes bs => .visit_bytes bs
  | .pString s => .visit_str s
  | .pVecU8 bs => .visit_bytes bs

/-- A `Capturable` in the non-serde build: either a value with a direct
`Visit` impl, or a borrowed reference to a `Capturable` (the blanket
`impl Visit for &'a T`, src/lib.rs lines 182-189). -/
inductive Capturable where
  | prim (p : Prim)
  | ref (c : Capturable)
  deriving DecidableEq, Repr

/-- `Visit::visit` over `Capturable`: a direct impl dispatches per
`visitDirect`; a reference delegates unchanged to the referent
(`(**self).visit(visitor)`, src/lib.rs line 187). -/
def Capturable.visit : Capturable → List VisitorCall
  | .prim p => visitDirect p
  | .ref c => c.visit

/-- The methods of the `Visitor` trait, as names. -/
inductive VMethod where
  | mI64
  | mU64
  | mF64
  | mBool
  | mChar
  | mStr
  | mBytes
  | mArgs
  deriving DecidableEq, Repr

/-- The `Visitor` method a given call invokes. -/
def methodOf : VisitorCall → VMethod
  | .visit_i64 _ => .mI64
  | .visit_u64 _ => .mU64
  | .visit_f64 _ => .mF64
  | .visit_bool _ => .mBool
  | .visit_char _ => .mChar
  | .visit_str _ => .mStr
  | .visit_bytes _ => .mBytes
  | .visit_args _ => .mArgs

/-- The external `{:?}` formatters the `Visitor` defaults hand to
`format_args!` (std facilities, out of scope per the spec): one renderer
per argument type, arbitrary. -/
structure Formatters where
  fmtI : Int → String
  fmtU : Nat → String
  fmtF : Rat → String
  fmtB : Bool → String
  fmtS : String → String
  fmtBy : List Nat → String

/-- The body of each `Visitor` method's default implementation (src/lib.rs
lines 14-47), as the list of calls it makes back on `self`:
* `visit_i64`/`visit_u64`/`visit_f64`/`visit_bool`/`visit_str`/`visit_bytes`
  each call `visit_args(format_args!("{:?}", v))`;
* `visit_char` encodes the char as UTF-8 into a 4-byte buffer and calls
  `visit_str` on the resulting one-to-four-byte slice, i.e. the one-char
  string (lines 34-37);
* `visit_args` is the required method and has no default; it is mapped to
  itself. -/
def defaultBody (F : Formatters) : VisitorCall → List VisitorCall
  | .visit_i64 v => [.visit_args (F.fmtI v)]
  | .visit_u64 v => [.visit_args (F.fmtU v)]
  | .visit_f64 v => [.visit_args (F.fmtF v)]
  | .visit_bool v => [.visit_args (F.fmtB v)]
  | .visit_char c => [.visit_str (String.singleton c)]
  | .visit_str s => [.visit_args (F.fmtS s)]
  | .visit_bytes bs => [.visit_args (F.fmtBy bs)]
  | .visit_args s => [.visit_args s]

/-- The first `Serializer` call serde's standard `Serialize` impls
(external to this crate) make for each type in the shared primitive
domain: numerics, bool, char and strings serialize via the corresponding
`serialize_*` primitive; `&[u8]` and `Vec<u8>` have no serde
specialization and serialize as sequences of their elements, so their
first call is `serialize_seq(Some(len))`. -/
def serdeFirstCall : Prim → SValue
  | .pU8 n => .sU8 n
  | .pU16 n => .sU16 n
  | .pU32 n => .sU32 n
  | .pU64 n => .sU64 n
  | .pI8 n => .sI8 n
  | .pI16 n => .sI16 n
  | .pI32 n => .sI32 n
  | .pI64 n => .sI64 n
  | .pF32 x => .sF32 x
  | .pF64 x => .sF64 x
  | .pChar c => .sChar c
  | .pBool b => .sBool b
  | .pStr s => .sStr s
  | .pBytes bs => .sSeq (some bs.length)
  | .pString s => .sStr s
  | .pVecU8 bs => .sSeq (some bs.length)

/-- Whether a `Prim` is a byte buffer (`&[u8]` or `Vec<u8>`). -/
def isByteBuffer : Prim → Bool
  | .pBytes _ => true
  | .pVecU8 _ => true
  | _ => false

/-- Every bridge invocation ends in exactly one of two terminal states:
success with exactly one visitor call, or `Unsupported` with none. -/
theorem bridge_cases (v : SValue) :
    (∃ c, bridge v = (Except.ok (), [c])) ∨
      bridge v = (Except.error Unsupported.unsupported, []) := by
  induction v
  case sSome w ih => exact ih
  all_goals first
    | exact Or.inl ⟨_, rfl⟩
    | exact Or.inr rfl

/-- C1: for every value whose first call into the bridge is a
structured-entry call (sequence, tuple, tuple-struct, tuple-variant, map,
struct, struct-variant, unit, unit-struct, unit-variant, newtype-struct,
newtype-variant, or optional-absent), driving it through the bridge
returns `Unsupported` and the `Visitor` receives zero `visit_*` calls. -/
theorem structured_entry_unsupported_no_calls (v : SValue)
    (h : structuredEntry v = true) :
    bridge v = (Except.error Unsupported.unsupported, []) := by
  cases v <;> simp_all [structuredEntry, bridge]

theorem structured_entry_unsupported_no_calls_witness :
    structuredEntry (SValue.sSeq (some 2)) = true ∧
      bridge (SValue.sSeq (some 2)) = (Except.error Unsupported.unsupported, []) :=
  ⟨rfl, structured_entry_unsupported_no_calls (SValue.sSeq (some 2)) rfl⟩

/-- C2: for every supported primitive type and every in-range value,
the self-contained dispatch delivers exactly one `Visitor` call of the
matching kind whose argument equals the value after lossless widening of
narrower numerics to 64 bits (on the modelled mathematical payloads the
widening casts are the identity, hence lossless and never narrowing). -/
theorem primitive_visit_matches_claim (p : Prim) (h : inRange p = true) :
    visitDirect p = [claimedCall p] := by
  cases p <;> rfl

theorem primitive_visit_matches_claim_witness :
    inRange (Prim.pU8 1) = true ∧
      visitDirect (Prim.pU8 1) = [claimedCall (Prim.pU8 1)] :=
  ⟨rfl, primitive_visit_matches_claim (Prim.pU8 1) rfl⟩

/-- C3 counterexample: `collect_str` does not fail with `Unsupported` and
does not leave the `Visitor` untouched — it succeeds, delivering one
`visit_args` call carrying the `Display` rendering (src/lib.rs 328-330). -/
theorem collect_str_succeeds_counterexample :
    bridge (SValue.sCollectStr "a string") =
        (Except.ok (), [VisitorCall.visit_args "a string"]) ∧
      (bridge (SValue.sCollectStr "a string")).1 ≠
        Except.error Unsupported.unsupported :=
  ⟨rfl, fun h => Except.noConfusion h⟩

/-- C3 amended: when the richer model invokes `collect_str`, the bridge
succeeds, forwarding the `Display` rendering of the value to the
`Visitor` via exactly one `visit_args` call. -/
theorem collect_str_forwards_display_via_visit_args (s : String) :
    bridge (SValue.sCollectStr s) = (Except.ok (), [VisitorCall.visit_args s]) :=
  rfl

/-- C4 counterexample: optional-present recursion is not single-level.
`Some(Some(1u64))` wraps a non-primitive-shaped inner value, yet the
bridge succeeds with `visit_u64 1` instead of failing `Unsupported`. -/
theorem nested_some_succeeds_counterexample :
    primitiveShaped (SValue.sSome (SValue.sU64 1)) = false ∧
      bridge (SValue.sSome (SValue.sSome (SValue.sU64 1))) =
        (Except.ok (), [VisitorCall.visit_u64 1]) :=
  ⟨rfl, rfl⟩

/-- C4 amended: `serialize_some` recurses into the inner value with the
same bridge, to any depth: driving optional-present-of-v through the
bridge has exactly the same outcome (result and visitor calls) as driving
v itself, so nested optionals are unwrapped transparently and success is
decided by the eventual non-optional first call. -/
theorem serialize_some_recurses_fully (v : SValue) :
    bridge (SValue.sSome v) = bridge v :=
  rfl

/-- C5: whenever the bridge returns `Unsupported`, the caller delivers
exactly one fallback `visit_args` call whose text is the generic debug
rendering `dbg` applied to the original source value (the `Unsupported`
error carries no payload and contributes nothing to the text). Since
`capture` is a function of `(dbg, v)`, the rendering is deterministic:
capturing an equal value again yields equal fallback text. -/
theorem fallback_is_debug_of_value (dbg : SValue → String) (v : SValue)
    (h : (bridge v).1 = Except.error Unsupported.unsupported) :
    capture dbg v = [VisitorCall.visit_args (dbg v)] := by
  rcases bridge_cases v with ⟨c, hb⟩ | hb
  · rw [hb] at h
    exact absurd h (by simp)
  · simp [capture, hb]

theorem fallback_is_debug_of_value_witness :
    (bridge SValue.sUnit).1 = Except.error Unsupported.unsupported ∧
      capture (fun _ => "()") SValue.sUnit = [VisitorCall.visit_args "()"] :=
  ⟨rfl, fallback_is_debug_of_value (fun _ => "()") SValue.sUnit rfl⟩

/-- C6: every top-level capture has exactly one terminal outcome — the
`Visitor` receives exactly one call in total: either the bridge succeeded
and that call is its single forwarded call (no fallback), or the bridge
returned `Unsupported` having made zero calls and the single call is the
fallback `visit_args` with the debug rendering. Never both, never none. -/
theorem capture_exactly_one_outcome (dbg : SValue → String) (v : SValue) :
    ∃ c, capture dbg v = [c] ∧
      (bridge v = (Except.ok (), [c]) ∨
        (bridge v = (Except.error Unsupported.unsupported, []) ∧
          c = VisitorCall.visit_args (dbg v))) := by
  rcases bridge_cases v with ⟨c, hb⟩ | hb
  · exact ⟨c, by simp [capture, hb], Or.inl hb⟩
  · exact ⟨VisitorCall.visit_args (dbg v), by simp [capture, hb], Or.inr ⟨hb, rfl⟩⟩

/-- C7: for every primitive-shaped value, capturing optional-present
wrapping it yields exactly the same single `Visitor` call, with the same
argument, as capturing the value directly (unwrap-then-capture
equivalence), on both the bridge outcome and the full capture trace. -/
theorem some_primitive_unwrap_equiv (dbg : SValue → String) (v : SValue)
    (h : primitiveShaped v = true) :
    ∃ c, bridge v = (Except.ok (), [c]) ∧
      bridge (SValue.sSome v) = (Except.ok (), [c]) ∧
      capture dbg (SValue.sSome v) = [c] ∧ capture dbg v = [c] := by
  cases v <;> first
    | exact ⟨_, rfl, rfl, rfl, rfl⟩
    | simp_all [primitiveShaped]

theorem some_primitive_unwrap_equiv_witness :
    primitiveShaped (SValue.sBool true) = true ∧
      ∃ c, bridge (SValue.sBool true) = (Except.ok (), [c]) ∧
        bridge (SValue.sSome (SValue.sBool true)) = (Except.ok (), [c]) ∧
        capture (fun _ => "") (SValue.sSome (SValue.sBool true)) = [c] ∧
        capture (fun _ => "") (SValue.sBool true) = [c] :=
  ⟨rfl, some_primitive_unwrap_equiv (fun _ => "") (SValue.sBool true) rfl⟩

/-- C8: capturing a borrowed reference to a `Capturable` value yields a
trace identical to capturing the value directly — the blanket
`impl Visit for &'a T` delegates unchanged. -/
theorem ref_transparency (c : Capturable) :
    (Capturable.ref c).visit = c.visit :=
  rfl

/-- C9: the default `visit_char` re-dispatches exactly one `visit_str`
call carrying the UTF-8 encoding of the char — the one-char string, whose
byte size is the char's UTF-8 size, between 1 and 4 — so capturing a char
against a `Visitor` overriding only `visit_str` observes `visit_str` of
that string (concretely, the default expansion of `visit_char 'x'` is
`[visit_str "x"]`); and `visit_char` is the only default that
re-dispatches to a different `visit_*` operation: every other method with
a default (all except the required `visit_args`) routes to a single
`visit_args` call built from a generic formatter. -/
theorem default_dispatch_char_only (F : Formatters) :
    (∀ c : Char,
      defaultBody F (VisitorCall.visit_char c) =
          [VisitorCall.visit_str (String.singleton c)] ∧
        (String.singleton c).utf8ByteSize = c.utf8Size ∧
        1 ≤ c.utf8Size ∧ c.utf8Size ≤ 4) ∧
    defaultBody F (VisitorCall.visit_char 'x') = [VisitorCall.visit_str "x"] ∧
    (∀ call : VisitorCall, methodOf call ≠ VMethod.mChar →
      methodOf call ≠ VMethod.mArgs →
      ∃ s, defaultBody F call = [VisitorCall.visit_args s]) := by
  refine ⟨fun c => ⟨rfl, ?_, Char.utf8Size_pos c, Char.utf8Size_le_four c⟩, rfl, ?_⟩
  · simp [String.singleton, String.utf8ByteSize, String.utf8ByteSize.go]
  · intro call h1 h2
    cases call <;> simp_all [methodOf, defaultBody]

/-- Concrete formatter bundle used to instantiate C9's theorem. -/
def sampleFmts : Formatters :=
  ⟨fun _ => "i", fun _ => "u", fun _ => "f", fun _ => "b", fun _ => "s",
    fun _ => "y"⟩

theorem default_dispatch_char_only_witness :
    ∃ s, defaultBody sampleFmts (VisitorCall.visit_i64 0) =
      [VisitorCall.visit_args s] :=
  (default_dispatch_char_only sampleFmts).2.2 (VisitorCall.visit_i64 0)
    (by decide) (by decide)

/-- C10 counterexample: the two build-time dispatch implementations are
not observationally equivalent on byte buffers. serde's standard
`Serialize` impl for `&[u8]` serializes as a sequence, so its first call
into the bridge is `serialize_seq`, which fails `Unsupported` and falls
back to a `visit_args` debug rendering — while the self-contained
dispatch delivers `visit_bytes`. -/
theorem bytes_bridge_direct_differ_counterexample :
    capture (fun _ => "[1, 2]") (serdeFirstCall (Prim.pBytes [1, 2])) ≠
        visitDirect (Prim.pBytes [1, 2]) ∧
      capture (fun _ => "[1, 2]") (serdeFirstCall (Prim.pBytes [1, 2])) =
        [VisitorCall.visit_args "[1, 2]"] ∧
      visitDirect (Prim.pBytes [1, 2]) = [VisitorCall.visit_bytes [1, 2]] :=
  ⟨by decide, rfl, rfl⟩

/-- C10 amended: the two build-time dispatch implementations are
observationally equivalent on the shared primitive domain except byte
buffers: for every supported primitive value other than `&[u8]`/`Vec<u8>`,
driving it through the serde bridge produces exactly the same single
`Visitor` call, with the same widened argument, as the self-contained
direct dispatch. -/
theorem bridge_direct_equiv_non_bytes (dbg : SValue → String) (p : Prim)
    (h : isByteBuffer p = false) :
    capture dbg (serdeFirstCall p) = visitDirect p := by
  cases p <;> first
    | rfl
    | simp_all [isByteBuffer]

theorem bridge_direct_equiv_non_bytes_witness :
    isByteBuffer (Prim.pBool true) = false ∧
      capture (fun _ => "") (serdeFirstCall (Prim.pBool true)) =
        visitDirect (Prim.pBool true) :=
  ⟨rfl, bridge_direct_equiv_non_bytes (fun _ => "") (Prim.pBool true) rfl⟩
